import Mathlib

/-!
Verification development for the crypto-physical-buyer repository
(Crossmint purchasing tool).  The definitions below are a shallow
embedding of the TypeScript sources:

* `src/index.ts` — product-source identifier handling
  (`extractAsinFromUrl`, `AmazonSource`), order-status normalization
  (`getOrderStatus`), and the payment-preparation poller
  (`waitForPaymentPreparation`);
* `src/payment.ts` — `processPayment` (precondition checks, RPC
  endpoint resolution, chain submission);
* `src/cli.ts` — the `buy` action orchestrator flow (payment step plus
  the post-payment status monitor loop).

JavaScript runtime conventions are modelled explicitly: absent or
`null`/`undefined` JSON fields are `Option.none`; string truthiness
(`if (s)`) is `strTruthy`; `a || b` on strings is `jsOrStr`.  Remote
calls are driven by oracles (`Nat → GetStatusResult` scripts for the
order-status endpoint, a function oracle for the chain client), and
each polling loop is written with explicit fuel equal to the remaining
attempt budget, so the loop condition `attempts < maxAttempts` holds
exactly when fuel is positive.
-/

/-- JavaScript truthiness of an optional string field: the field is
present and not the empty string. -/
def strTruthy : Option String → Bool
  | none => false
  | some s => !(s == "")

/-- JavaScript `s || d` for an optional string `s`: the default `d` is
used when the field is absent or the empty string. -/
def jsOrStr (s : Option String) (d : String) : String :=
  match s with
  | some v => if v = "" then d else v
  | none => d

/-! ## Data model (order snapshots as returned by the checkout service) -/

structure TotalPrice where
  amount : Option String
  currency : Option String
deriving DecidableEq

structure OrderQuote where
  status : Option String
  quotedAt : Option String
  expiresAt : Option String
  totalPrice : Option TotalPrice
deriving DecidableEq

/-- Payment preparation: the serialized unsigned transaction plus an
open bag of auxiliary service fields (modelled as opaque key-value
pairs). -/
structure PaymentPreparation where
  serializedTransaction : Option String
  extra : List (String × String)
deriving DecidableEq

structure OrderPayment where
  status : Option String
  method : Option String
  currency : Option String
  preparation : Option PaymentPreparation
deriving DecidableEq

/-- A point-in-time order snapshot.  All fields are optional because
the JavaScript runtime does not enforce the TypeScript interface on
responses. -/
structure OrderRec where
  orderId : Option String
  phase : Option String
  quote : Option OrderQuote
  payment : Option OrderPayment
deriving DecidableEq

/-- The `OrderStatusResponse` shape of `src/index.ts`: the order fields
may appear nested under the `order` key or flattened at the top level.
Unknown top-level fields are kept opaquely in `extra`. -/
structure OrderStatusResponse where
  order : Option OrderRec
  orderId : Option String
  phase : Option String
  quote : Option OrderQuote
  payment : Option OrderPayment
  extra : List (String × String)
deriving DecidableEq

/-! ## Identifier extraction (`extractAsinFromUrl`, `AmazonSource`) -/

/-- Character class `[A-Z0-9]` of the ASIN pattern. -/
def isAsinChar (c : Char) : Bool :=
  (('A' ≤ c && c ≤ 'Z') || ('0' ≤ c && c ≤ '9'))

/-- One attempted match of the regex `\/([A-Z0-9]{10})(?:\/|\?|$)` at
the head of the character list: a slash, then exactly ten class
characters (the capture group), then a slash, a question mark, or the
end of the string. -/
def asinMatchHere : List Char → Option (List Char)
  | [] => none
  | c :: rest =>
    if c = '/' then
      if (rest.take 10).length = 10 && (rest.take 10).all isAsinChar then
        match rest.drop 10 with
        | [] => some (rest.take 10)
        | d :: _ => if d = '/' || d = '?' then some (rest.take 10) else none
      else none
    else none

/-- Regex scan: try a match at each start position from the left and
return the first capture, as `String.prototype.match` does for a
non-global regex. -/
def scanAsin : List Char → Option (List Char)
  | [] => none
  | c :: rest =>
    match asinMatchHere (c :: rest) with
    | some code => some code
    | none => scanAsin rest

/-- `extractAsinFromUrl` of `src/index.ts`. -/
def extractAsinFromUrl (url : String) : Option String :=
  (scanAsin url.data).map String.mk

/-- Legacy top-level `createProductLocator` of `src/index.ts`: both
branches return the identifier verbatim behind the `amazon:` scheme. -/
def createProductLocator (identifier : String) (isUrl : Bool) : String :=
  if isUrl then "amazon:" ++ identifier else "amazon:" ++ identifier

/-- `AmazonSource.extractProductId` (same pattern as
`extractAsinFromUrl`, duplicated in the source). -/
def AmazonSource.extractProductId (url : String) : Option String :=
  (scanAsin url.data).map String.mk

/-- `AmazonSource.createProductLocator`. -/
def AmazonSource.createProductLocator (identifier : String) (isUrl : Bool) : String :=
  if isUrl then
    match AmazonSource.extractProductId identifier with
    | some asin => "amazon:" ++ asin
    | none => "amazon:" ++ identifier
  else "amazon:" ++ identifier

/-- The regex test `^[A-Z0-9]{10}$` used for non-URL identifiers. -/
def isValidAsin (identifier : String) : Bool :=
  identifier.data.length = 10 && identifier.data.all isAsinChar

/-- `AmazonSource.validateIdentifier`. -/
def AmazonSource.validateIdentifier (identifier : String) (isUrl : Bool) : Bool :=
  if isUrl then (AmazonSource.extractProductId identifier).isSome
  else isValidAsin identifier

/-! ## Order-status normalization (`getOrderStatus`, src/index.ts lines 439-458) -/

/-- The `{ status: 'unknown' }` default substituted for a missing
top-level `quote` during normalization. -/
def defaultQuote : OrderQuote :=
  { status := some "unknown", quotedAt := none, expiresAt := none, totalPrice := none }

/-- The `{ status: 'unknown', method: 'unknown', currency: 'unknown' }`
default substituted for a missing top-level `payment`. -/
def defaultPayment : OrderPayment :=
  { status := some "unknown", method := some "unknown", currency := some "unknown",
    preparation := none }

/-- The response transformation inside `getOrderStatus`: when the
response has no `order` key but a truthy top-level `orderId`, rebuild a
nested `order` record from the flattened fields (with `unknown`
defaults) and keep every original top-level field via the object
spread.  Otherwise the response is returned unchanged. -/
def normalizeOrderStatus (data : OrderStatusResponse) : OrderStatusResponse :=
  if data.order.isNone && strTruthy data.orderId then
    { data with
      order := some
        { orderId := data.orderId,
          phase := some (jsOrStr data.phase "unknown"),
          quote := some (data.quote.getD defaultQuote),
          payment := some (data.payment.getD defaultPayment) } }
  else data

/-! ## Payment-preparation poller (`waitForPaymentPreparation`) -/

/-- Result of one call to the order-status endpoint: a response, or a
thrown error carrying its message. -/
inductive GetStatusResult where
  | ok (response : OrderStatusResponse)
  | err (message : String)

/-- `statusResponse.order || statusResponse`: read the nested order
when present, otherwise treat the flattened top-level fields as the
order. -/
def effOrder (r : OrderStatusResponse) : OrderRec :=
  match r.order with
  | some o => o
  | none => { orderId := r.orderId, phase := r.phase, quote := r.quote, payment := r.payment }

/-- `order.payment?.preparation?.serializedTransaction`. -/
def prepSerialized (o : OrderRec) : Option String :=
  (o.payment.bind OrderPayment.preparation).bind PaymentPreparation.serializedTransaction

/-- Truthiness of the serialized transaction, the success condition of
the poller. -/
def prepReady (o : OrderRec) : Bool := strTruthy (prepSerialized o)

/-- `order.payment?.status`. -/
def paymentStatus (o : OrderRec) : Option String :=
  o.payment.bind OrderPayment.status

/-- The terminal-failure test of the poller:
`order.payment?.status === 'failed' || order.payment?.status === 'canceled'`. -/
def terminalFail (o : OrderRec) : Bool :=
  paymentStatus o == some "failed" || paymentStatus o == some "canceled"

/-- Message of the error thrown on a terminal payment status. -/
def terminalMsg (o : OrderRec) : String :=
  "Order payment status is " ++ (paymentStatus o).getD "undefined" ++
    ". Cannot proceed with payment."

/-- Message of the error thrown when the attempt budget is exhausted. -/
def timeoutMsg (maxAttempts : Nat) : String :=
  "Payment preparation not available after " ++ toString maxAttempts ++ " attempts"

def DEFAULT_POLLING_MAX_ATTEMPTS : Nat := 15

/-- The `while (attempts < maxAttempts)` loop of
`waitForPaymentPreparation`, with `script i` giving the outcome of the
i-th `getOrderStatus` call (1-based).  `fuel` is the remaining budget
`maxAttempts - attempts` and `attempts` the number of calls already
made; the pair returned is the outcome (`ok` response or thrown error
message) together with the total number of `getOrderStatus` calls.
Note that the terminal-status `throw` occurs inside the `try` block of
the source, so it is caught by the same `catch` as a transport error:
on a non-final attempt the loop logs, sleeps and continues. -/
def waitLoop (script : Nat → GetStatusResult) (maxAttempts : Nat) :
    Nat → Nat → Except String OrderStatusResponse × Nat
  | 0, attempts => (Except.error (timeoutMsg maxAttempts), attempts)
  | fuel + 1, attempts =>
    match script (attempts + 1) with
    | GetStatusResult.err e =>
      if maxAttempts ≤ attempts + 1 then (Except.error e, attempts + 1)
      else waitLoop script maxAttempts fuel (attempts + 1)
    | GetStatusResult.ok r =>
      if prepReady (effOrder r) then (Except.ok r, attempts + 1)
      else if terminalFail (effOrder r) then
        if maxAttempts ≤ attempts + 1 then
          (Except.error (terminalMsg (effOrder r)), attempts + 1)
        else waitLoop script maxAttempts fuel (attempts + 1)
      else waitLoop script maxAttempts fuel (attempts + 1)

/-- `waitForPaymentPreparation(orderId, apiKey, maxAttempts)`, with the
remote endpoint abstracted into `script`. -/
def waitForPaymentPreparation (script : Nat → GetStatusResult) (maxAttempts : Nat) :
    Except String OrderStatusResponse × Nat :=
  waitLoop script maxAttempts maxAttempts 0

/-! ## Payment signer (`processPayment`, src/payment.ts) -/

structure TransactionReceipt where
  transactionHash : String
  blockNumber : Nat
deriving DecidableEq

/-- Calls made to the chain client (ethers provider/wallet). -/
inductive ChainCall where
  | connect (rpcUrl : String)
  | sendTransaction (serializedTransaction : String)
deriving DecidableEq

/-- Errors thrown by `processPayment`.  `payloadMissing` carries the
full order snapshot (the source stringifies it into the message);
`typeError` models the JavaScript TypeError raised when `payment` or
`quote` is absent on the order object. -/
inductive PayError where
  | insufficientFunds
  | addressRequired
  | payloadMissing (order : OrderRec)
  | chainError (message : String)
  | typeError
deriving DecidableEq

/-- RPC endpoint resolution from `order.payment.method`
(src/payment.ts lines 101-115): the fixed if-else chain with the
polygon-amoy testnet endpoint as the default for unknown methods. -/
def resolveRpcUrl (method : Option String) : String :=
  if method = some "base" then "https://mainnet.base.org"
  else if method = some "base-sepolia" then "https://sepolia.base.org"
  else if method = some "polygon" then "https://polygon-rpc.com/"
  else if method = some "polygon-amoy" then "https://rpc-amoy.polygon.technology/"
  else "https://rpc-amoy.polygon.technology/"

/-- `processPayment(order, privateKey)` with the chain interaction
(parse, send, wait) abstracted into the `chain` oracle, which receives
the resolved RPC URL and the serialized transaction.  The returned
list records every call that reaches the chain client, in order.  The
precondition checks happen before any chain call, in source order:
insufficient funds, then required physical address, then missing
serialized transaction. -/
def processPayment (chain : String → String → Except String TransactionReceipt)
    (order : OrderRec) : Except PayError TransactionReceipt × List ChainCall :=
  match order.payment with
  | none => (Except.error PayError.typeError, [])
  | some payment =>
    if payment.status = some "crypto-payer-insufficient-funds" then
      (Except.error PayError.insufficientFunds, [])
    else
      match order.quote with
      | none => (Except.error PayError.typeError, [])
      | some quote =>
        if quote.status = some "requires-physical-address" then
          (Except.error PayError.addressRequired, [])
        else
          match payment.preparation.bind PaymentPreparation.serializedTransaction with
          | none => (Except.error (PayError.payloadMissing order), [])
          | some stx =>
            if stx = "" then (Except.error (PayError.payloadMissing order), [])
            else
              match chain (resolveRpcUrl payment.method) stx with
              | Except.ok receipt =>
                (Except.ok receipt,
                  [ChainCall.connect (resolveRpcUrl payment.method),
                    ChainCall.sendTransaction stx])
              | Except.error e =>
                (Except.error (PayError.chainError e),
                  [ChainCall.connect (resolveRpcUrl payment.method),
                    ChainCall.sendTransaction stx])

/-! ## Orchestrator buy flow (src/cli.ts buy action) -/

/-- Externally observable events of the buy flow. -/
inductive FlowEvent where
  | getStatusCall
  | chainConnect (rpcUrl : String)
  | chainSend (serializedTransaction : String)
deriving DecidableEq

def chainCallEvent : ChainCall → FlowEvent
  | ChainCall.connect u => FlowEvent.chainConnect u
  | ChainCall.sendTransaction s => FlowEvent.chainSend s

/-- The post-payment status monitor loop of the buy action (cli.ts
lines 277-358), counting its `getOrderStatus` calls: at most ten loop
iterations; a polling error breaks out; reaching
`paymentStatus === 'completed' || phase === 'complete'` performs one
extra `getOrderStatus` call for the final report and breaks.  The
monitor never touches the chain client. -/
def monitorLoop (script : Nat → GetStatusResult) : Nat → Nat → Nat
  | 0, calls => calls
  | fuel + 1, calls =>
    match script (calls + 1) with
    | GetStatusResult.err _ => calls + 1
    | GetStatusResult.ok r =>
      if jsOrStr (paymentStatus (effOrder r)) "unknown" = "completed" ∨
          jsOrStr (effOrder r).phase "unknown" = "complete" then calls + 2
      else monitorLoop script fuel (calls + 1)

/-- Events of the payment step of the buy action (cli.ts lines
246-266): when the created order quote is `valid` and a private key is
available, run the preparation poller (each attempt is one
`getOrderStatus` call) and, on success, call `processPayment` exactly
once — its failure is caught and only logged. -/
def buyPayEvents (initialStatus : String) (hasKey : Bool)
    (prepScript : Nat → GetStatusResult)
    (chain : String → String → Except String TransactionReceipt) : List FlowEvent :=
  if initialStatus = "valid" then
    if hasKey then
      List.replicate (waitForPaymentPreparation prepScript DEFAULT_POLLING_MAX_ATTEMPTS).2
          FlowEvent.getStatusCall ++
        (match (waitForPaymentPreparation prepScript DEFAULT_POLLING_MAX_ATTEMPTS).1 with
          | Except.ok r => (processPayment chain (effOrder r)).2.map chainCallEvent
          | Except.error _ => [])
    else []
  else []

/-- Events of the post-payment monitor of the buy action (cli.ts lines
269-359): runs only when the quote is `valid`, and makes only
`getOrderStatus` calls. -/
def buyMonEvents (initialStatus : String) (monScript : Nat → GetStatusResult) :
    List FlowEvent :=
  if initialStatus = "valid" then
    List.replicate (monitorLoop monScript 10 0) FlowEvent.getStatusCall
  else []

/-- The buy action after order creation: payment step, then monitor.
The returned list is the sequence of observable events
(status-endpoint calls and chain-client calls), in order. -/
def buyFlow (initialStatus : String) (hasKey : Bool)
    (prepScript : Nat → GetStatusResult)
    (chain : String → String → Except String TransactionReceipt)
    (monScript : Nat → GetStatusResult) : List FlowEvent :=
  buyPayEvents initialStatus hasKey prepScript chain ++ buyMonEvents initialStatus monScript

/-- Predicate picking out chain submissions among flow events. -/
def isChainSend : FlowEvent → Bool
  | FlowEvent.chainSend _ => true
  | _ => false

/-- Number of signed-and-submitted transactions in a run. -/
def submissionCount (events : List FlowEvent) : Nat :=
  events.countP isChainSend

/-- A status result that neither succeeds nor stops the poller: a
response whose effective order has no truthy serialized transaction
and no terminal payment status. -/
def quietResult : GetStatusResult → Bool
  | GetStatusResult.ok r => !(prepReady (effOrder r)) && !(terminalFail (effOrder r))
  | GetStatusResult.err _ => false

/-! ## Concrete inputs used by the witness theorems -/

def awaitingQuote : OrderQuote :=
  { status := some "valid", quotedAt := none, expiresAt := none, totalPrice := none }

/-- Snapshot still awaiting preparation. -/
def quietResponse : OrderStatusResponse :=
  { order := some
      { orderId := some "order-1", phase := some "payment",
        quote := some awaitingQuote,
        payment := some
          { status := some "awaiting-payment", method := some "polygon-amoy",
            currency := some "usdc", preparation := none } },
    orderId := none, phase := none, quote := none, payment := none, extra := [] }

/-- Snapshot with a signable preparation payload. -/
def readyResponse : OrderStatusResponse :=
  { order := some
      { orderId := some "order-1", phase := some "payment",
        quote := some awaitingQuote,
        payment := some
          { status := some "awaiting-payment", method := some "polygon-amoy",
            currency := some "usdc",
            preparation := some { serializedTransaction := some "0xdeadbeef", extra := [] } } },
    orderId := none, phase := none, quote := none, payment := none, extra := [] }

/-- Snapshot whose payment status is terminally `failed` and which has
no preparation payload. -/
def failedResponse : OrderStatusResponse :=
  { order := some
      { orderId := some "order-1", phase := some "payment",
        quote := some awaitingQuote,
        payment := some
          { status := some "failed", method := some "polygon-amoy",
            currency := some "usdc", preparation := none } },
    orderId := none, phase := none, quote := none, payment := none, extra := [] }

/-- Script observing `payment.status = failed` from the very first
attempt on. -/
def failedScript : Nat → GetStatusResult :=
  fun _ => GetStatusResult.ok failedResponse

/-- Script whose first preparation payload appears at attempt 2. -/
def readyAt2Script : Nat → GetStatusResult :=
  fun n => if n = 2 then GetStatusResult.ok readyResponse else GetStatusResult.ok quietResponse

/-- Script that never resolves. -/
def quietScript : Nat → GetStatusResult :=
  fun _ => GetStatusResult.ok quietResponse

/-- Script failing with a transport error at attempt 3. -/
def errAt3Script : Nat → GetStatusResult :=
  fun n =>
    if n = 3 then GetStatusResult.err "request failed" else GetStatusResult.ok quietResponse

/-- Order with insufficient funds AND a present serialized
transaction: the chain client must still receive zero calls. -/
def insufficientOrder : OrderRec :=
  { orderId := some "order-2", phase := some "payment",
    quote := some awaitingQuote,
    payment := some
      { status := some "crypto-payer-insufficient-funds", method := some "polygon",
        currency := some "usdc",
        preparation := some { serializedTransaction := some "0xdeadbeef", extra := [] } } }

def addressRequiredOrder : OrderRec :=
  { orderId := some "order-3", phase := some "quote",
    quote := some { awaitingQuote with status := some "requires-physical-address" },
    payment := some
      { status := some "awaiting-payment", method := some "polygon",
        currency := some "usdc", preparation := none } }

def payloadMissingOrder : OrderRec :=
  { orderId := some "order-4", phase := some "payment",
    quote := some awaitingQuote,
    payment := some
      { status := some "awaiting-payment", method := some "base",
        currency := some "usdc", preparation := none } }

/-- Order ready to sign, paying over base mainnet. -/
def readyBaseOrder : OrderRec :=
  { orderId := some "order-5", phase := some "payment",
    quote := some awaitingQuote,
    payment := some
      { status := some "awaiting-payment", method := some "base",
        currency := some "usdc",
        preparation := some { serializedTransaction := some "0xdeadbeef", extra := [] } } }

/-- A chain oracle whose submission always confirms. -/
def okChain : String → String → Except String TransactionReceipt :=
  fun _ _ => Except.ok { transactionHash := "0xhash", blockNumber := 123 }

/-- A flattened order-status response (no `order` key) with an extra
unknown top-level field. -/
def flatResponse : OrderStatusResponse :=
  { order := none,
    orderId := some "order-6", phase := some "payment",
    quote := some awaitingQuote,
    payment := some
      { status := some "awaiting-payment", method := some "polygon-amoy",
        currency := some "usdc", preparation := none },
    extra := [("clientSecret", "secret-value")] }

/-! ## Helper lemmas -/

/-- A list without a slash admits no match of the ASIN pattern at any
position, so the scan fails. -/
lemma scanAsin_no_slash : ∀ l : List Char, ('/' : Char) ∉ l → scanAsin l = none
  | [], _ => rfl
  | c :: rest, h => by
    have hc : ¬(c = '/') := fun e => h (by simp [e])
    have hrest : ('/' : Char) ∉ rest := fun hm => h (List.mem_cons_of_mem _ hm)
    simp [scanAsin, asinMatchHere, hc, scanAsin_no_slash rest hrest]

/-- At a slash directly followed by a valid ten-character code at the
end of the input, the pattern matches and captures the code. -/
lemma asinMatchHere_slash_valid (c : List Char) (hlen : c.length = 10)
    (hall : c.all isAsinChar = true) : asinMatchHere ('/' :: c) = some c := by
  have h1 : List.take 10 c = c := by rw [← hlen, List.take_length]
  have h2 : List.drop 10 c = [] := by rw [← hlen, List.drop_length]
  simp [asinMatchHere, h1, h2, hall, hlen]

/-- If no position inside `pre` matches the pattern, scanning
`pre ++ tail` is scanning `tail`. -/
lemma scanAsin_append : ∀ pre tail : List Char,
    (∀ i, i < pre.length → asinMatchHere (pre.drop i ++ tail) = none) →
    scanAsin (pre ++ tail) = scanAsin tail
  | [], _, _ => rfl
  | c :: pre, tail, h => by
    have h0 : asinMatchHere (c :: (pre ++ tail)) = none := by
      have h00 := h 0 (by simp)
      simpa using h00
    have htail : ∀ i, i < pre.length → asinMatchHere (pre.drop i ++ tail) = none := by
      intro i hi
      have hs := h (i + 1) (by simpa using Nat.succ_lt_succ hi)
      simpa using hs
    simp only [List.cons_append, scanAsin, List.append_eq, h0]
    exact scanAsin_append pre tail htail

/-! ## Claim theorems -/

/-- Claim C8 counterexample: the code `KLMNOPQRST` is a valid
ten-character alphanumeric code and it is the final path segment of
the URL `https://example.com/ABCDEFGHIJ/KLMNOPQRST`, yet extraction
returns the earlier segment `ABCDEFGHIJ`, not `KLMNOPQRST`. -/
theorem extractProductId_final_segment_counterexample :
    isValidAsin "KLMNOPQRST" = true ∧
    "https://example.com/ABCDEFGHIJ" ++ "/" ++ "KLMNOPQRST" =
      "https://example.com/ABCDEFGHIJ/KLMNOPQRST" ∧
    AmazonSource.extractProductId "https://example.com/ABCDEFGHIJ/KLMNOPQRST" =
      some "ABCDEFGHIJ" ∧
    extractAsinFromUrl "https://example.com/ABCDEFGHIJ/KLMNOPQRST" = some "ABCDEFGHIJ" ∧
    ("ABCDEFGHIJ" : String) ≠ "KLMNOPQRST" := by
  refine ⟨by decide, by decide, by decide, by decide, by decide⟩

/-- Claim C8 (amended): `AmazonSource.extractProductId` and
`extractAsinFromUrl` agree; extraction returns the capture of the
FIRST position where the pattern matches, so when a valid
ten-character code is the final path segment and no earlier position
of the URL matches the pattern, extraction returns exactly that code;
and the two concrete examples hold as stated. -/
theorem extractProductId_first_match :
    (∀ u : String, AmazonSource.extractProductId u = extractAsinFromUrl u) ∧
    (∀ p c : String, isValidAsin c = true →
      (∀ i, i < p.data.length → asinMatchHere (p.data.drop i ++ ('/' :: c.data)) = none) →
      AmazonSource.extractProductId (p ++ "/" ++ c) = some c) ∧
    AmazonSource.extractProductId "https://example.com/dp/B01DFKC2SO" = some "B01DFKC2SO" ∧
    AmazonSource.extractProductId "https://example.com/no-code-here" = none := by
  refine ⟨fun u => rfl, ?_, by decide, by decide⟩
  intro p c hvalid hquiet
  have hparts : c.data.length = 10 ∧ c.data.all isAsinChar = true := by
    simpa [isValidAsin, Bool.and_eq_true, decide_eq_true_eq] using hvalid
  have hdata : (p ++ "/" ++ c).data = p.data ++ ('/' :: c.data) := by
    simp [String.data_append]
  unfold AmazonSource.extractProductId
  rw [hdata, scanAsin_append p.data ('/' :: c.data) hquiet]
  simp [scanAsin, asinMatchHere_slash_valid c.data hparts.1 hparts.2]

/-- Claim C8 witness: the general first-match theorem applied at the
concrete URL `https://example.com/dp/B01DFKC2SO`. -/
theorem extractProductId_first_match_witness :
    AmazonSource.extractProductId ("https://example.com/dp" ++ "/" ++ "B01DFKC2SO") =
      some "B01DFKC2SO" :=
  extractProductId_first_match.2.1 "https://example.com/dp" "B01DFKC2SO"
    (by decide) (by decide)

/-- Claim C9: for every code matching `^[A-Z0-9]{10}$`, locator
construction is idempotent — `AmazonSource.createProductLocator` gives
`amazon:` followed by the code for both `isUrl = true` (where the URL
extraction finds no slash-delimited token and falls back to the raw
identifier) and `isUrl = false`. -/
theorem createProductLocator_idempotent_on_codes :
    ∀ code : String, isValidAsin code = true →
      AmazonSource.createProductLocator code true = "amazon:" ++ code ∧
      AmazonSource.createProductLocator code false = "amazon:" ++ code := by
  intro code hvalid
  have hall : code.data.all isAsinChar = true := by
    have hv : code.data.length = 10 ∧ code.data.all isAsinChar = true := by
      simpa [isValidAsin, Bool.and_eq_true, decide_eq_true_eq] using hvalid
    exact hv.2
  have hno : ('/' : Char) ∉ code.data := by
    intro hm
    have hslash : isAsinChar '/' = true := List.all_eq_true.mp hall _ hm
    exact absurd hslash (by decide)
  have hext : AmazonSource.extractProductId code = none := by
    unfold AmazonSource.extractProductId
    rw [scanAsin_no_slash code.data hno]
    rfl
  exact ⟨by simp [AmazonSource.createProductLocator, hext], by
    simp [AmazonSource.createProductLocator]⟩

/-- Claim C9 witness: idempotence at the concrete code `B01DFKC2SO`. -/
theorem createProductLocator_idempotent_witness :
    AmazonSource.createProductLocator "B01DFKC2SO" true = "amazon:" ++ "B01DFKC2SO" ∧
    AmazonSource.createProductLocator "B01DFKC2SO" false = "amazon:" ++ "B01DFKC2SO" :=
  createProductLocator_idempotent_on_codes "B01DFKC2SO" (by decide)

/-- Claim C10: an identifier without any slash never matches the
extraction pattern (which requires a slash right before the
ten-character token), so `extractProductId` returns none and
validation with `isUrl = true` rejects it — including a bare,
otherwise-valid product code. -/
theorem extractProductId_requires_slash :
    ∀ identifier : String, ('/' : Char) ∉ identifier.data →
      AmazonSource.extractProductId identifier = none ∧
      AmazonSource.validateIdentifier identifier true = false := by
  intro identifier hno
  have hext : AmazonSource.extractProductId identifier = none := by
    unfold AmazonSource.extractProductId
    rw [scanAsin_no_slash identifier.data hno]
    rfl
  exact ⟨hext, by simp [AmazonSource.validateIdentifier, hext]⟩

/-- Claim C10 witness: the bare valid code `B01DFKC2SO` passed as a
URL is rejected. -/
theorem extractProductId_requires_slash_witness :
    (('/' : Char) ∉ ("B01DFKC2SO" : String).data) ∧
    (AmazonSource.extractProductId "B01DFKC2SO" = none ∧
      AmazonSource.validateIdentifier "B01DFKC2SO" true = false) :=
  ⟨by decide, extractProductId_requires_slash "B01DFKC2SO" (by decide)⟩

/-- Stepping the poller past a quiet attempt (response with no
preparation and no terminal status) consumes one unit of budget and
continues with the next attempt. -/
lemma waitLoop_quiet_step (script : Nat → GetStatusResult) (M fuel a : Nat)
    (h : quietResult (script (a + 1)) = true) :
    waitLoop script M (fuel + 1) a = waitLoop script M fuel (a + 1) := by
  cases hs : script (a + 1) with
  | err e => rw [hs] at h; simp [quietResult] at h
  | ok r =>
    rw [hs] at h
    simp only [quietResult, Bool.and_eq_true, Bool.not_eq_true'] at h
    simp [waitLoop, hs, h.1, h.2]

/-- Reaching the first ready attempt: if attempt `k` (within budget)
is the first to carry a truthy serialized transaction and every
attempt strictly between the current position and `k` is quiet, the
loop returns that response with exactly `k` calls. -/
lemma waitLoop_success (script : Nat → GetStatusResult) (M : Nat) :
    ∀ fuel a, M - a = fuel → ∀ k r, a < k → k ≤ M →
      script k = GetStatusResult.ok r → prepReady (effOrder r) = true →
      (∀ i, i < k → a < i → quietResult (script i) = true) →
      waitLoop script M fuel a = (Except.ok r, k) := by
  intro fuel
  induction fuel with
  | zero => intro a hfa k r hak hkM _ _ _; omega
  | succ fuel ih =>
    intro a hfa k r hak hkM hsk hready hquiet
    by_cases hk : a + 1 = k
    · subst hk
      simp [waitLoop, hsk, hready]
    · have hlt : a + 1 < k := by omega
      have hq : quietResult (script (a + 1)) = true := hquiet (a + 1) hlt (by omega)
      rw [waitLoop_quiet_step script M fuel a hq]
      exact ih (a + 1) (by omega) k r hlt hkM hsk hready
        (fun i hik hai => hquiet i hik (by omega))

/-- Timeout: if every attempt within the budget is quiet, the loop
exhausts the budget and fails with the timeout message after exactly
`M` calls. -/
lemma waitLoop_timeout (script : Nat → GetStatusResult) (M : Nat) :
    ∀ fuel a, M - a = fuel → a ≤ M →
      (∀ i, i ≤ M → a < i → quietResult (script i) = true) →
      waitLoop script M fuel a = (Except.error (timeoutMsg M), M) := by
  intro fuel
  induction fuel with
  | zero =>
    intro a hfa haM _
    have haM2 : a = M := by omega
    subst haM2
    simp [waitLoop]
  | succ fuel ih =>
    intro a hfa haM hquiet
    have haM1 : a + 1 ≤ M := by omega
    have hq : quietResult (script (a + 1)) = true := hquiet (a + 1) haM1 (by omega)
    rw [waitLoop_quiet_step script M fuel a hq]
    exact ih (a + 1) (by omega) haM1 (fun i h1 h2 => hquiet i h1 (by omega))

/-- An error on the final attempt propagates with exactly `M` calls,
provided every earlier attempt was quiet. -/
lemma waitLoop_err_final (script : Nat → GetStatusResult) (M : Nat) :
    ∀ fuel a e, M - a = fuel → a < M → script M = GetStatusResult.err e →
      (∀ i, i < M → a < i → quietResult (script i) = true) →
      waitLoop script M fuel a = (Except.error e, M) := by
  intro fuel
  induction fuel with
  | zero => intro a e hfa haM _ _; omega
  | succ fuel ih =>
    intro a e hfa haM hse hquiet
    by_cases hk : a + 1 = M
    · subst hk
      simp [waitLoop, hse]
    · have hlt : a + 1 < M := by omega
      have hq : quietResult (script (a + 1)) = true := hquiet (a + 1) hlt (by omega)
      rw [waitLoop_quiet_step script M fuel a hq]
      exact ih (a + 1) e (by omega) hlt hse (fun i h1 h2 => hquiet i h1 (by omega))

/-- Claim C4: the poller returns the first response carrying a truthy
serialized transaction after exactly `k` status calls when attempt
`k ≤ maxAttempts` is the first non-quiet attempt; and when every
attempt within the budget is quiet it raises the preparation-timeout
error after exactly `maxAttempts` status calls. -/
theorem waitForPaymentPreparation_first_ready_or_timeout :
    (∀ (script : Nat → GetStatusResult) (M k : Nat) (r : OrderStatusResponse),
      1 ≤ k → k ≤ M → script k = GetStatusResult.ok r → prepReady (effOrder r) = true →
      (∀ i, i < k → 1 ≤ i → quietResult (script i) = true) →
      waitForPaymentPreparation script M = (Except.ok r, k)) ∧
    (∀ (script : Nat → GetStatusResult) (M : Nat), 1 ≤ M →
      (∀ i, i ≤ M → 1 ≤ i → quietResult (script i) = true) →
      waitForPaymentPreparation script M = (Except.error (timeoutMsg M), M)) := by
  constructor
  · intro script M k r hk1 hkM hsk hready hquiet
    exact waitLoop_success script M M 0 (by omega) k r (by omega) hkM hsk hready
      (fun i h1 h2 => hquiet i h1 (by omega))
  · intro script M hM hquiet
    exact waitLoop_timeout script M M 0 (by omega) (by omega)
      (fun i h1 h2 => hquiet i h1 (by omega))

/-- Claim C4 witness: with a script becoming ready at attempt 2 the
poller succeeds after exactly 2 calls out of a budget of 5, and with a
script that never resolves it times out after exactly 4 calls out of a
budget of 4. -/
theorem waitForPaymentPreparation_first_ready_or_timeout_witness :
    waitForPaymentPreparation readyAt2Script 5 = (Except.ok readyResponse, 2) ∧
    waitForPaymentPreparation quietScript 4 = (Except.error (timeoutMsg 4), 4) :=
  ⟨waitForPaymentPreparation_first_ready_or_timeout.1 readyAt2Script 5 2 readyResponse
      (by decide) (by decide) (by rfl) (by rfl) (by decide),
    waitForPaymentPreparation_first_ready_or_timeout.2 quietScript 4 (by decide)
      (by decide)⟩

/-- Claim C5: a status call that fails still counts against the
attempt budget.  First conjunct: when the failure happens on the final
attempt `maxAttempts` (all earlier attempts quiet), that error
propagates to the caller after exactly `maxAttempts` calls.  Second
conjunct: when the failing attempt `a + 1` is not the final one, the
loop continues — one step of the loop on the erroring attempt equals
the loop resumed at the next attempt with one unit of budget
consumed. -/
theorem waitForPaymentPreparation_error_counts_budget :
    (∀ (script : Nat → GetStatusResult) (M : Nat) (e : String), 1 ≤ M →
      script M = GetStatusResult.err e →
      (∀ i, i < M → 1 ≤ i → quietResult (script i) = true) →
      waitForPaymentPreparation script M = (Except.error e, M)) ∧
    (∀ (script : Nat → GetStatusResult) (M fuel a : Nat) (e : String),
      M = a + (fuel + 1) → a + 1 < M → script (a + 1) = GetStatusResult.err e →
      waitLoop script M (fuel + 1) a = waitLoop script M fuel (a + 1)) := by
  constructor
  · intro script M e hM hse hquiet
    exact waitLoop_err_final script M M 0 e (by omega) (by omega) hse
      (fun i h1 h2 => hquiet i h1 (by omega))
  · intro script M fuel a e hMa hlt hse
    have hnotfinal : ¬(M ≤ a + 1) := by omega
    simp [waitLoop, hse, hnotfinal]

/-- Claim C5 witness: a transport error on the final attempt (budget
3, quiet before) propagates after 3 calls; a transport error at
attempt 3 of budget 5 makes the loop continue with attempt 4. -/
theorem waitForPaymentPreparation_error_counts_budget_witness :
    waitForPaymentPreparation errAt3Script 3 = (Except.error "request failed", 3) ∧
    waitLoop errAt3Script 5 (2 + 1) 2 = waitLoop errAt3Script 5 2 3 :=
  ⟨waitForPaymentPreparation_error_counts_budget.1 errAt3Script 3 "request failed"
      (by decide) (by rfl) (by decide),
    waitForPaymentPreparation_error_counts_budget.2 errAt3Script 5 2 2 "request failed"
      (by decide) (by decide) (by rfl)⟩

/-- Claim C2, code behavior at the failing input: with a budget of 3
attempts and a script whose very first observation (attempt j = 1) has
terminal payment status `failed` and no serialized transaction, the
poller does NOT stop at attempt 1: the terminal-status throw is caught
by the same catch clause as a transport error, so polling continues
and the terminal error only escapes on the final attempt, after all 3
status calls.  The claim requires exactly 1 call. -/
theorem waitForPaymentPreparation_terminal_consumes_full_budget :
    terminalFail (effOrder failedResponse) = true ∧
    prepReady (effOrder failedResponse) = false ∧
    waitForPaymentPreparation failedScript 3 =
      (Except.error "Order payment status is failed. Cannot proceed with payment.", 3) ∧
    (3 : Nat) ≠ 1 := by
  refine ⟨by decide, by decide, by rfl, by decide⟩

/-- Claim C3: `processPayment` checks its preconditions before any
chain call, in source order, on any order carrying `payment` and
`quote` records: (a) insufficient-funds payment status fails with the
insufficient-funds error and an empty chain-call trace — regardless of
any present serialized transaction; (b) otherwise a
`requires-physical-address` quote status fails with the
address-required error; (c) otherwise a missing (or empty) serialized
transaction fails with the payload-missing error carrying the full
order snapshot.  All three failures perform zero chain calls. -/
theorem processPayment_preconditions_in_order :
    ∀ (chain : String → String → Except String TransactionReceipt) (order : OrderRec)
      (payment : OrderPayment) (quote : OrderQuote),
      order.payment = some payment → order.quote = some quote →
      ((payment.status = some "crypto-payer-insufficient-funds" →
          processPayment chain order = (Except.error PayError.insufficientFunds, [])) ∧
        (payment.status ≠ some "crypto-payer-insufficient-funds" →
          quote.status = some "requires-physical-address" →
          processPayment chain order = (Except.error PayError.addressRequired, [])) ∧
        (payment.status ≠ some "crypto-payer-insufficient-funds" →
          quote.status ≠ some "requires-physical-address" →
          strTruthy (payment.preparation.bind PaymentPreparation.serializedTransaction) =
            false →
          processPayment chain order = (Except.error (PayError.payloadMissing order), []))) := by
  intro chain order payment quote hp hq
  refine ⟨?_, ?_, ?_⟩
  · intro hins
    simp [processPayment, hp, hins]
  · intro hnins hreq
    simp [processPayment, hp, hq, hnins, hreq]
  · intro hnins hnreq hmiss
    cases hstx : payment.preparation.bind PaymentPreparation.serializedTransaction with
    | none => simp [processPayment, hp, hq, hnins, hnreq, hstx]
    | some stx =>
      rw [hstx] at hmiss
      have hempty : stx = "" := by simpa [strTruthy] using hmiss
      subst hempty
      simp [processPayment, hp, hq, hnins, hnreq, hstx]

/-- Claim C3 witness: the three precondition failures at concrete
orders; in particular the insufficient-funds order carries a
serialized transaction yet produces an empty chain-call trace. -/
theorem processPayment_preconditions_in_order_witness :
    (processPayment okChain insufficientOrder =
      (Except.error PayError.insufficientFunds, []) ∧
      processPayment okChain addressRequiredOrder =
        (Except.error PayError.addressRequired, []) ∧
      processPayment okChain payloadMissingOrder =
        (Except.error (PayError.payloadMissing payloadMissingOrder), [])) := by
  refine ⟨?_, ?_, ?_⟩
  · exact (processPayment_preconditions_in_order okChain insufficientOrder _ _
      rfl rfl).1 rfl
  · exact (processPayment_preconditions_in_order okChain addressRequiredOrder _ _
      rfl rfl).2.1 (by decide) rfl
  · exact (processPayment_preconditions_in_order okChain payloadMissingOrder _ _
      rfl rfl).2.2 (by decide) (by decide) rfl

/-- Claim C6: the RPC endpoint is resolved from `payment.method` by
the fixed table — polygon to the Polygon mainnet RPC, polygon-amoy to
the Amoy testnet RPC, base to the Base mainnet RPC, base-sepolia to
the Base Sepolia testnet RPC — every other method resolves, without
error, to the default Amoy testnet endpoint; and when `processPayment`
reaches the chain it connects to exactly the resolved endpoint. -/
theorem processPayment_resolves_rpc_endpoint :
    resolveRpcUrl (some "polygon") = "https://polygon-rpc.com/" ∧
    resolveRpcUrl (some "polygon-amoy") = "https://rpc-amoy.polygon.technology/" ∧
    resolveRpcUrl (some "base") = "https://mainnet.base.org" ∧
    resolveRpcUrl (some "base-sepolia") = "https://sepolia.base.org" ∧
    (∀ method : Option String, method ≠ some "polygon" → method ≠ some "polygon-amoy" →
      method ≠ some "base" → method ≠ some "base-sepolia" →
      resolveRpcUrl method = "https://rpc-amoy.polygon.technology/") ∧
    (∀ (chain : String → String → Except String TransactionReceipt) (order : OrderRec)
      (payment : OrderPayment) (quote : OrderQuote) (stx : String),
      order.payment = some payment → order.quote = some quote →
      payment.status ≠ some "crypto-payer-insufficient-funds" →
      quote.status ≠ some "requires-physical-address" →
      payment.preparation.bind PaymentPreparation.serializedTransaction = some stx →
      stx ≠ "" →
      (processPayment chain order).2 =
        [ChainCall.connect (resolveRpcUrl payment.method),
          ChainCall.sendTransaction stx]) := by
  refine ⟨rfl, rfl, rfl, rfl, ?_, ?_⟩
  · intro method h1 h2 h3 h4
    simp [resolveRpcUrl, h1, h2, h3, h4]
  · intro chain order payment quote stx hp hq hnins hnreq hstx hne
    simp only [processPayment, hp, hq, hstx]
    simp only [if_neg hnins, if_neg hnreq, if_neg hne]
    cases chain (resolveRpcUrl payment.method) stx with
    | ok receipt => rfl
    | error e => rfl

/-- Claim C6 witness: the table rows, the fallback at the unknown
method `xyz`, and the chain trace of a ready base-mainnet order. -/
theorem processPayment_resolves_rpc_endpoint_witness :
    resolveRpcUrl (some "xyz") = "https://rpc-amoy.polygon.technology/" ∧
    (processPayment okChain readyBaseOrder).2 =
      [ChainCall.connect (resolveRpcUrl (some "base")),
        ChainCall.sendTransaction "0xdeadbeef"] :=
  ⟨processPayment_resolves_rpc_endpoint.2.2.2.2.1 (some "xyz")
      (by decide) (by decide) (by decide) (by decide),
    processPayment_resolves_rpc_endpoint.2.2.2.2.2 okChain readyBaseOrder _ _ "0xdeadbeef"
      rfl rfl (by decide) (by decide) rfl (by decide)⟩

/-- Claim C7: a service response carrying truthy `orderId` and `phase`
plus `quote` and `payment` flattened at the top level, with no `order`
key, normalizes to a response holding the very same four fields both
at the top level (every original top-level field, known or extra, is
preserved by the object spread) and under the rebuilt `order` key. -/
theorem getOrderStatus_normalizes_flattened :
    ∀ (data : OrderStatusResponse) (oid ph : String) (q : OrderQuote) (p : OrderPayment),
      data.order = none → data.orderId = some oid → oid ≠ "" →
      data.phase = some ph → ph ≠ "" →
      data.quote = some q → data.payment = some p →
      normalizeOrderStatus data =
        { data with
          order := some
            { orderId := some oid, phase := some ph, quote := some q, payment := some p } } := by
  intro data oid ph q p hor hid hidne hph hphne hq hp
  simp [normalizeOrderStatus, hor, hid, hph, hq, hp, strTruthy, jsOrStr, hidne, hphne]

/-- Claim C7 witness: normalization of a concrete flattened response
with an extra unknown top-level field. -/
theorem getOrderStatus_normalizes_flattened_witness :
    normalizeOrderStatus flatResponse =
      { flatResponse with
        order := some
          { orderId := some "order-6", phase := some "payment",
            quote := some awaitingQuote,
            payment := some
              { status := some "awaiting-payment", method := some "polygon-amoy",
                currency := some "usdc", preparation := none } } } :=
  getOrderStatus_normalizes_flattened flatResponse "order-6" "payment" _ _
    rfl rfl (by decide) rfl (by decide) rfl rfl

/-- Polling events are never chain submissions. -/
lemma countP_send_replicate (n : Nat) :
    (List.replicate n FlowEvent.getStatusCall).countP isChainSend = 0 := by
  induction n with
  | zero => rfl
  | succ n ih => simp [List.replicate_succ, List.countP_cons, isChainSend, ih]

/-- The chain-call trace of one `processPayment` invocation is empty
or exactly one connect followed by one submission. -/
lemma processPayment_calls_shape
    (chain : String → String → Except String TransactionReceipt) (o : OrderRec) :
    (processPayment chain o).2 = [] ∨
      ∃ u s, (processPayment chain o).2 =
        [ChainCall.connect u, ChainCall.sendTransaction s] := by
  unfold processPayment
  cases o.payment with
  | none => exact Or.inl rfl
  | some payment =>
    by_cases hins : payment.status = some "crypto-payer-insufficient-funds"
    · simp [hins]
    · simp only [if_neg hins]
      cases o.quote with
      | none => exact Or.inl rfl
      | some quote =>
        by_cases hreq : quote.status = some "requires-physical-address"
        · simp [hreq]
        · simp only [if_neg hreq]
          cases payment.preparation.bind PaymentPreparation.serializedTransaction with
          | none => exact Or.inl rfl
          | some stx =>
            by_cases hempty : stx = ""
            · simp [hempty]
            · simp only [if_neg hempty]
              cases chain (resolveRpcUrl payment.method) stx with
              | ok receipt => exact Or.inr ⟨_, _, rfl⟩
              | error e => exact Or.inr ⟨_, _, rfl⟩

/-- Claim C1: within a single run of the buy flow, at most one
transaction is signed and submitted to the chain, for every initial
quote status, key availability, polling script (including ones where a
stale snapshot still carries `payment.preparation.serializedTransaction`
after submission), chain behavior and monitor script: the poller and
the post-payment monitor only issue status calls, and the single
`processPayment` invocation submits at most once. -/
theorem buyFlow_submits_at_most_once :
    ∀ (initialStatus : String) (hasKey : Bool) (prepScript : Nat → GetStatusResult)
      (chain : String → String → Except String TransactionReceipt)
      (monScript : Nat → GetStatusResult),
      submissionCount (buyFlow initialStatus hasKey prepScript chain monScript) ≤ 1 := by
  intro initialStatus hasKey prepScript chain monScript
  unfold buyFlow submissionCount
  rw [List.countP_append]
  have hmon : (buyMonEvents initialStatus monScript).countP isChainSend = 0 := by
    unfold buyMonEvents
    split
    · exact countP_send_replicate _
    · rfl
  have hpay : (buyPayEvents initialStatus hasKey prepScript chain).countP isChainSend ≤ 1 := by
    unfold buyPayEvents
    split
    · split
      · rw [List.countP_append]
        rw [countP_send_replicate]
        cases hres : (waitForPaymentPreparation prepScript DEFAULT_POLLING_MAX_ATTEMPTS).1 with
        | ok r =>
          rcases processPayment_calls_shape chain (effOrder r) with hsh | ⟨u, s, hsh⟩
          · simp [hsh]
          · simp [hsh, List.countP_cons, isChainSend, chainCallEvent]
        | error e => simp
      · simp
    · simp
  omega
